import Mathlib

/-!
Shallow embedding of `telesocial.py` (Telesocial-SDK-Python), the REST client
module of the repository.  The embedding models the Python 2 runtime that the
repository's own GUI harness requires (`examples/telesocial-gui.py` uses the
PyQt4 `QVariant.toString().toAscii()` API, which exists only under Python 2);
under that runtime the response text returned by `_do_raw` is ASCII text and
`data.decode()` in `SimpleClient.version` is the identity on it, so the
embedding uses a single text type for response bodies.

Parsed JSON bodies are modelled by `JVal`; Python dicts are association lists
whose iteration order is insertion order and whose keys are unique in every
value the embedded functions construct or the theorems quantify over.
Exceptions are modelled by `Except PyExc`; the HTTP layer and `json.loads`
(both external to the repository's code) are oracle parameters collected in
`Env`.  Each embedded client function also returns the list of network
effects (requests) it dispatched, in order, so that theorems can speak about
the outgoing parameters of a call and about calls that issue no request.
-/

/-- A parsed JSON value (the result of `json.loads`), as manipulated by the
client: strings, integers, booleans, `None`, lists, and dicts in insertion
order.  JSON floats do not occur in any body the client inspects and are not
modelled. -/
inductive JVal where
  | s (str : String)
  | n (int : Int)
  | b (bool : Bool)
  | null
  | arr (items : List JVal)
  | obj (fields : List (String × JVal))

/-- First-match lookup in a Python dict (keys are unique, so first match is
the match). -/
def lookupJ : List (String × JVal) → String → Option JVal
  | [], _ => none
  | (k, v) :: rest, key => if k = key then some v else lookupJ rest key

/-- Python dict assignment `d[key] = v`: replaces the value in place when the
key is present (keeping its position in insertion order), else appends. -/
def pyUpdateJ : List (String × JVal) → String → JVal → List (String × JVal)
  | [], key, v => [(key, v)]
  | (k, w) :: rest, key, v =>
    if k = key then (k, v) :: rest else (k, w) :: pyUpdateJ rest key v

/-- Python truthiness of a `JVal` (`if a:`): empty string, zero, `False`,
`None`, empty list and empty dict are falsy. -/
def truthy : JVal → Bool
  | .s str => !(str = "")
  | .n int => !(int = 0)
  | .b bool => bool
  | .null => false
  | .arr items => !items.isEmpty
  | .obj fields => !fields.isEmpty

/-- Python comparison `a == ''`: true exactly for the empty string (numbers,
booleans, `None`, containers never equal `''`). -/
def isEmptyStr : JVal → Bool
  | .s "" => true
  | _ => false

/-- Python `type(x) is list`. -/
def JVal.isArr : JVal → Bool
  | .arr _ => true
  | _ => false

/-- The attribute state of a `TelesocialError` instance after `__init__`
(telesocial.py:35-39): `self.original = kwargs.pop('original', None)`,
`self.code = kwargs.pop('code', 500)`,
`self.message = kwargs.pop('message', 'Unknown error')`.  Fields hold Python
values, so `None` (`JVal.null`) is representable. -/
structure ErrObj where
  original : JVal
  code : JVal
  message : JVal

/-- Exceptions the embedded code can raise.  `svcErr`/`netErr` carry the
constructed `TelesocialServiceError`/`TelesocialNetworkError` object. -/
inductive PyExc where
  | netErr (e : ErrObj)
  | svcErr (e : ErrObj)
  | indexError
  | keyError (key : String)
  | typeError
  | nameError (name : String)

/-- TelesocialError.__init__ (telesocial.py:35-39) applied to a keyword
mapping: each field is popped from the kwargs with its default.  A key that
is present with value `None` yields `None`, not the default. -/
def tsErrorInit (kwargs : List (String × JVal)) : ErrObj :=
  { original := (lookupJ kwargs "original").getD .null
    code := (lookupJ kwargs "code").getD (.n 500)
    message := (lookupJ kwargs "message").getD (.s "Unknown error") }

/-- TelesocialServiceError.__init__ (telesocial.py:51-53):
`TelesocialError.__init__(self, code=code, message=message, **kwargs)` with
parameter defaults `code=None, message=None`.  The `code` and `message`
keywords are therefore always present in the forwarded kwargs. -/
def TelesocialServiceError (code : JVal) (message : JVal) : ErrObj :=
  tsErrorInit [("code", code), ("message", message)]

/-- TelesocialNetworkError.__init__ (telesocial.py:47-49):
`TelesocialError.__init__(self, original=original)`; `code` and `message`
are absent from the kwargs, so the base-class defaults apply. -/
def TelesocialNetworkError (original : JVal) : ErrObj :=
  tsErrorInit [("original", original)]

mutual

/-- deep_find (telesocial.py:55-74).
`if key in data: return data[key]` then
`r = []; for k in data: if isinstance(data[k], dict): a = deep_find(data[k], key); if a or a == '': r.append(a)`
and finally `return r[0]` (IndexError when `r` is empty).  A raise inside a
recursive call propagates immediately.  The function is only ever applied to
parsed-JSON bodies; for a non-dict argument its subscripting raises, here
collapsed to `typeError` (no endpoint and no theorem in this file applies it
to a non-dict). -/
def deep_find (data : JVal) (key : String) : Except PyExc JVal :=
  match data with
  | .obj d =>
    match lookupJ d key with
    | some v => .ok v
    | none =>
      match deepFindList d key with
      | .error e => .error e
      | .ok [] => .error .indexError
      | .ok (a :: _) => .ok a
  | _ => .error .typeError

/-- The `for k in data` loop of `deep_find`, collecting (in iteration order)
the results of recursive searches in nested dicts that are truthy or equal
to `''`; a raise from a recursive search aborts the loop. -/
def deepFindList (d : List (String × JVal)) (key : String) : Except PyExc (List JVal) :=
  match d with
  | [] => .ok []
  | (_, v) :: rest =>
    match v with
    | .obj fields =>
      match deep_find (.obj fields) key with
      | .error e => .error e
      | .ok a =>
        if truthy a || isEmptyStr a then
          match deepFindList rest key with
          | .error e => .error e
          | .ok r => .ok (a :: r)
        else
          deepFindList rest key
    | _ => deepFindList rest key

end

mutual

/-- Whether `key` occurs in `data` at a position `deep_find` searches: at the
top level of a dict, or anywhere inside a dict nested (directly or
transitively) as a dict value.  (`deep_find` never looks inside lists, per
its `isinstance(data[k], dict)` guard.) -/
def hasKeyDeep (data : JVal) (key : String) : Bool :=
  match data with
  | .obj d => (lookupJ d key).isSome || hasKeyDeepList d key
  | _ => false

/-- List part of `hasKeyDeep`: whether any dict value of `d` contains `key`
at reachable depth. -/
def hasKeyDeepList (d : List (String × JVal)) (key : String) : Bool :=
  match d with
  | [] => false
  | (_, v) :: rest =>
    (match v with
     | .obj fields => hasKeyDeep (.obj fields) key
     | _ => false) || hasKeyDeepList rest key

end

/-- The Response namedtuple (telesocial.py:29): status code and parsed body. -/
structure Response where
  code : Nat
  data : JVal

/-- Form/query parameter mappings (`params` dicts of string keys and string
values, in insertion order). -/
abbrev PDict := List (String × String)

/-- Python `key in params` on a parameter dict. -/
def pyInP (key : String) : PDict → Bool
  | [] => false
  | (k, _) :: rest => k = key || pyInP key rest

/-- Python dict assignment on a parameter dict (replace in place, else
append). -/
def pyUpdateP : PDict → String → String → PDict
  | [], key, v => [(key, v)]
  | (k, w) :: rest, key, v =>
    if k = key then (k, v) :: rest else (k, w) :: pyUpdateP rest key v

/-- The request `_do_raw` hands to the HTTP layer: the uppercased method, the
URI `host + '/api/rest/' + endpoint` (before query-string attachment), and
the parameter mapping after application-key injection.  `urlencode(params,
True)` serializes exactly this mapping; for `POST` the encoding travels as
the request body, otherwise appended to the URI as a query string
(telesocial.py:131-138); the serialization itself is external to the claims
and not modelled. -/
structure Request where
  method : String
  uri : String
  params : PDict

/-- A network effect performed by a client call: a REST request through
`_do_raw`, or a direct `urlopen(url)` of a download URL taken from a media
body (telesocial.py:761). -/
inductive Effect where
  | rest (req : Request)
  | rawUrl (url : JVal)

/-- Outcome of the HTTP layer for a REST request.  `netFail reason` is a
`URLError` carrying a `reason` attribute (raised as
`TelesocialNetworkError`); `reply code body` covers a normal response and an
HTTP error response read from the error object (telesocial.py:143-158) — the
degenerate `URLError` with neither attribute is `reply 500 ""`. -/
inductive HttpOutcome where
  | netFail (reason : String)
  | reply (code : Nat) (body : String)

/-- Outcome of the direct `urlopen(url)` in `download_file`: a `URLError`
(of either kind — both are caught there), or the downloaded bytes. -/
inductive UrlOutcome where
  | urlErr (reason : String)
  | got (data : String)

/-- Oracle for everything external to the repository's code: the network
(`fetch` for REST requests, `fetchUrl` for the download helper's direct
fetch) and the standard-library JSON parser (`jsonLoads raw` is `some v`
when `json.loads(raw)` succeeds with value `v`, `none` when it raises). -/
structure Env where
  fetch : Request → HttpOutcome
  fetchUrl : JVal → UrlOutcome
  jsonLoads : String → Option JVal

/-- Python `s.upper()` on the ASCII method tags used by the client, written
over the character list so that concrete requests evaluate definitionally. -/
def pyUpper (s : String) : String :=
  String.mk (s.data.map Char.toUpper)

/-- The state of a `SimpleClient` instance: the mutable application key and
the host URL prefix fixed at construction. -/
structure SimpleClient where
  appkey : String
  host : String

namespace SimpleClient

/-- SimpleClient.__init__ (telesocial.py:103-115): stores the key and
prefixes the host with the scheme. -/
def init (appkey : String) (host : String) (https : Bool) : SimpleClient :=
  { appkey := appkey, host := (if https then "https://" else "http://") ++ host }

/-- The appkey property setter (telesocial.py:121-123): plain replacement of
the stored key. -/
def setAppkey (c : SimpleClient) (key : String) : SimpleClient :=
  { c with appkey := key }

/-- Request construction inside `_do_raw` (telesocial.py:125-141): URI
interpolation, `params = params or {}` (a `None` or empty mapping becomes an
empty dict), application-key injection
(`if not 'appkey' in params: params['appkey'] = self.appkey`), and method
uppercasing. -/
def buildRequest (c : SimpleClient) (endpoint : String) (params : Option PDict)
    (method : String) : Request :=
  let ps := params.getD []
  let ps := if pyInP "appkey" ps then ps else pyUpdateP ps "appkey" c.appkey
  { method := pyUpper method, uri := c.host ++ "/api/rest/" ++ endpoint, params := ps }

/-- SimpleClient._do_raw (telesocial.py:125-158): dispatches the built
request and returns `(code, decoded body text)`; a `URLError` with a
`reason` raises `TelesocialNetworkError(e)` (the error object stored as
`original`). -/
def _do_raw (env : Env) (c : SimpleClient) (endpoint : String) (params : Option PDict)
    (method : String) : List Effect × Except PyExc (Nat × String) :=
  let req := buildRequest c endpoint params method
  ([.rest req],
    match env.fetch req with
    | .netFail reason => .error (.netErr (TelesocialNetworkError (.s reason)))
    | .reply code body => .ok (code, body))

/-- SimpleClient._do (telesocial.py:160-167): parses the body with
`json.loads`, returning `Response(code, parsed)` on success and
`Response(code, an empty dict)` when parsing raises. -/
def _do (env : Env) (c : SimpleClient) (endpoint : String) (params : Option PDict)
    (method : String) : List Effect × Except PyExc Response :=
  let (eff, r) := _do_raw env c endpoint params method
  (eff, r.map (fun p => { code := p.1, data := (env.jsonLoads p.2).getD (.obj []) }))

/-- SimpleClient.get (telesocial.py:170-171). -/
def get (env : Env) (c : SimpleClient) (endpoint : String) (query : Option PDict) :
    List Effect × Except PyExc Response :=
  _do env c endpoint query "get"

/-- SimpleClient.post (telesocial.py:173-174). -/
def post (env : Env) (c : SimpleClient) (endpoint : String) (query : Option PDict) :
    List Effect × Except PyExc Response :=
  _do env c endpoint query "post"

/-- SimpleClient.delete (telesocial.py:176-177). -/
def delete (env : Env) (c : SimpleClient) (endpoint : String) (query : Option PDict) :
    List Effect × Except PyExc Response :=
  _do env c endpoint query "delete"

end SimpleClient

/-- Python subscript `data[key]` on a parsed body: dict lookup (KeyError when
missing); subscripting a non-dict with a string key raises TypeError. -/
def JVal.getItem : JVal → String → Except PyExc JVal
  | .obj d, key =>
    match lookupJ d key with
    | some v => .ok v
    | none => .error (.keyError key)
  | _, _ => .error .typeError

/-- Python subscript assignment `data[key] = v` on a parsed body (in-place
dict mutation, modelled functionally); assignment into a non-dict raises
TypeError. -/
def JVal.setItem : JVal → String → JVal → Except PyExc JVal
  | .obj d, key, v => .ok (.obj (pyUpdateJ d key v))
  | _, _, _ => .error .typeError

/-- Python membership `key in data` on a parsed body: dict key test, or list
membership (string equality against the elements).  The substring test on a
string body is not exercised by any endpoint modelled here and raises
TypeError in the model. -/
def pyIn (key : String) : JVal → Except PyExc Bool
  | .obj d => .ok (lookupJ d key).isSome
  | .arr items => .ok (items.any (fun v => match v with | .s str => str = key | _ => false))
  | _ => .error .typeError

/-- The nested assignment `res.data[wrapper][field] = v` (evaluate the inner
dict, mutate it, which mutates `res.data` in place — modelled as a
functional rebuild of both levels). -/
def setField2 (data : JVal) (wrapper field : String) (v : JVal) : Except PyExc JVal := do
  let inner ← data.getItem wrapper
  let inner2 ← inner.setItem field v
  data.setItem wrapper inner2

/-- The per-endpoint normalization block of the list endpoints
(telesocial.py:266-270, 486-496, 516-521, 672-682):
`if field not in res.data[wrapper]: res.data[wrapper][field] = []`
`elif type(res.data[wrapper][field]) is not list: datum = res.data[wrapper][field]; res.data[wrapper][field] = [datum]`
(and no change when the value already is a list). -/
def normalizeField (data : JVal) (wrapper field : String) : Except PyExc JVal := do
  let w ← data.getItem wrapper
  let present ← pyIn field w
  if present then
    let v ← (← data.getItem wrapper).getItem field
    if v.isArr then pure data
    else setField2 data wrapper field (.arr [v])
  else
    setField2 data wrapper field (.arr [])

/-- The failure arm shared by every endpoint policy check:
`raise TelesocialServiceError(res.code, deep_find(res.data, 'message'))` —
the `deep_find` argument is evaluated first, so its own exception
propagates instead when it raises. -/
def raiseService (res : Response) : Except PyExc Response :=
  match deep_find res.data "message" with
  | .ok m => .error (.svcErr (TelesocialServiceError (.n res.code) m))
  | .error e => .error e

/-- Digits of a decimal numeral (empty or non-digit input rejected). -/
def digitsToNat : List Char → Option Nat
  | [] => none
  | cs => cs.foldlM (fun acc ch => if ch.isDigit then some (acc * 10 + (ch.toNat - 48)) else none) 0

/-- Python `int(s)` on the pieces of a dotted version string: an optional
sign followed by decimal digits (surrounding whitespace, which cannot occur
in the bodies considered here, is not modelled). -/
def pyInt (s : String) : Option Int :=
  match s.toList with
  | '-' :: rest => (digitsToNat rest).map (fun m => -(m : Int))
  | '+' :: rest => (digitsToNat rest).map (fun m => (m : Int))
  | cs => (digitsToNat cs).map (fun m => (m : Int))

/-- Python `s.split(sep)` for a one-character separator, over the character
list (so concrete calls evaluate definitionally): `''.split('.')` is
`['']`, and every separator occurrence starts a new piece. -/
def pySplitAux (sep : Char) : List Char → List Char → List String
  | [], acc => [String.mk acc.reverse]
  | ch :: cs, acc =>
    if ch = sep then String.mk acc.reverse :: pySplitAux sep cs []
    else pySplitAux sep cs (ch :: acc)

/-- Python `s.split(sep)` (one-character separator). -/
def pySplit (sep : Char) (s : String) : List String :=
  pySplitAux sep s.data []

/-- Python `tuple(map(int, pieces))`: every piece through `int()`, the first
ValueError aborting the whole construction. -/
def mapIntList : List String → Option (List Int)
  | [] => some []
  | s :: rest =>
    match pyInt s, mapIntList rest with
    | some i, some l => some (i :: l)
    | _, _ => none

/-- Python truthiness of an optional string argument (`if phone:`): absent
(`None`) and the empty string are falsy. -/
def addIfTruthy (ps : PDict) (key : String) : Option String → PDict
  | none => ps
  | some v => if v = "" then ps else pyUpdateP ps key v

namespace SimpleClient

/-- SimpleClient.version (telesocial.py:180-193).  `_do_raw` runs outside the
`try`, so a network error propagates as such; inside the `try`,
`tuple(map(int, data.decode().split('.')))` parses the dotted text (under
the Python 2 runtime `data.decode()` is the identity on the ASCII body), and
any parse failure is caught and re-raised as
`TelesocialServiceError(None, 'Invalid version response: ' + data)`. -/
def version (env : Env) (c : SimpleClient) : List Effect × Except PyExc (List Int) :=
  let (eff, r) := _do_raw env c "version" none "get"
  (eff, r.bind (fun p =>
    match mapIntList (pySplit '.' p.2) with
    | some parts => .ok parts
    | none => .error (.svcErr (TelesocialServiceError .null
        (.s ("Invalid version response: " ++ p.2))))))

/-- SimpleClient.network_id_register (telesocial.py:196-222): params
`networkid` always, `phone`/`greetingid` only when truthy; POST to
`registrant/`; accept any 2xx, otherwise the `raiseService` arm. -/
def network_id_register (env : Env) (c : SimpleClient) (network_id : String)
    (phone : Option String) (greeting_id : Option String) :
    List Effect × Except PyExc Response :=
  let params : PDict := [("networkid", network_id)]
  let params := addIfTruthy params "phone" phone
  let params := addIfTruthy params "greetingid" greeting_id
  let (eff, r) := post env c "registrant/" (some params)
  (eff, r.bind (fun res =>
    if 200 ≤ res.code ∧ res.code < 300 then .ok res else raiseService res))

/-- SimpleClient.network_id_status (telesocial.py:224-249): POST to
`registrant/{network_id}` with `query=related` when `check_related`; the
response is returned unchanged when its code is one of 200, 401, 404,
otherwise the `raiseService` arm. -/
def network_id_status (env : Env) (c : SimpleClient) (network_id : String)
    (check_related : Bool) : List Effect × Except PyExc Response :=
  let params : PDict := if check_related then pyUpdateP [] "query" "related" else []
  let (eff, r) := post env c ("registrant/" ++ network_id) (some params)
  (eff, r.bind (fun res =>
    if res.code ∈ ([200, 401, 404] : List Nat) then .ok res else raiseService res))

/-- SimpleClient.network_id_list (telesocial.py:251-272): GET `registrant`;
on 200 normalize `NetworkidListResponse.networkids` and return, otherwise
the `raiseService` arm. -/
def network_id_list (env : Env) (c : SimpleClient) :
    List Effect × Except PyExc Response :=
  let (eff, r) := get env c "registrant" none
  (eff, r.bind (fun res =>
    if res.code ∈ ([200] : List Nat) then
      (normalizeField res.data "NetworkidListResponse" "networkids").map
        (fun d => { res with data := d })
    else raiseService res))

/-- SimpleClient.conference_create (telesocial.py:307-333): params
`networkid` always, `recordingid` then `greetingid` only when truthy; POST
to `conference`; accept any 2xx. -/
def conference_create (env : Env) (c : SimpleClient) (network_id : String)
    (greeting_id : Option String) (recording_id : Option String) :
    List Effect × Except PyExc Response :=
  let params : PDict := [("networkid", network_id)]
  let params := addIfTruthy params "recordingid" recording_id
  let params := addIfTruthy params "greetingid" greeting_id
  let (eff, r) := post env c "conference" (some params)
  (eff, r.bind (fun res =>
    if 200 ≤ res.code ∧ res.code < 300 then .ok res else raiseService res))

/-- SimpleClient.conference_list (telesocial.py:466-498): GET `conference`
with `active=true` when requested; on 200 normalize
`ConferenceListResponse.active` always, and
`ConferenceListResponse.inactive` only under `if active == False:`. -/
def conference_list (env : Env) (c : SimpleClient) (active : Bool) :
    List Effect × Except PyExc Response :=
  let params : PDict := if active then pyUpdateP [] "active" "true" else []
  let (eff, r) := get env c "conference" (some params)
  (eff, r.bind (fun res =>
    if res.code ∈ ([200] : List Nat) then
      (do
        let d1 ← normalizeField res.data "ConferenceListResponse" "active"
        let d2 ← if active = false then
            normalizeField d1 "ConferenceListResponse" "inactive"
          else pure d1
        pure { res with data := d2 })
    else raiseService res))

/-- SimpleClient.media_status (telesocial.py:598-615): POST to
`media/status/{media_id}` with empty params; accept any 2xx. -/
def media_status (env : Env) (c : SimpleClient) (media_id : String) :
    List Effect × Except PyExc Response :=
  let (eff, r) := post env c ("media/status/" ++ media_id) (some [])
  (eff, r.bind (fun res =>
    if 200 ≤ res.code ∧ res.code < 300 then .ok res else raiseService res))

/-- SimpleClient.media_list (telesocial.py:655-684): GET `media`; on 200
normalize `MediaidListResponse.uploaded` then `MediaidListResponse.recorded`
(via the in-place `struct` alias). -/
def media_list (env : Env) (c : SimpleClient) :
    List Effect × Except PyExc Response :=
  let (eff, r) := get env c "media" none
  (eff, r.bind (fun res =>
    if res.code ∈ ([200] : List Nat) then
      (do
        let d1 ← normalizeField res.data "MediaidListResponse" "uploaded"
        let d2 ← normalizeField d1 "MediaidListResponse" "recorded"
        pure { res with data := d2 })
    else raiseService res))

end SimpleClient

namespace SimpleClient

/-- SimpleClient.download_file (telesocial.py:735-771).  The `try` block
looks up the media status and extracts
`res.data['MediaResponse']['downloadUrl']` when `'MediaResponse'` is a key
of the body; its handler is written `except telesocial.TelesocialError`, but
no name `telesocial` is bound inside the module (there is no
`import telesocial` in telesocial.py), so whenever the `try` block raises,
evaluating the handler's class expression raises
`NameError('telesocial' is not defined)`, which propagates.  When a truthy
URL was extracted, `urlopen(url)` is attempted: a `URLError` is caught and
printed (no file), otherwise the bytes are written to `file_path`.  The
returned value models the file written: `some (path, bytes)` or `none`. -/
def download_file (env : Env) (c : SimpleClient) (media_id : String)
    (file_path : String) : List Effect × Except PyExc (Option (String × String)) :=
  let (eff, r) := media_status env c media_id
  let urlRes : Except PyExc JVal :=
    match r with
    | .error _ => .error (.nameError "telesocial")
    | .ok res =>
      match pyIn "MediaResponse" res.data with
      | .error _ => .error (.nameError "telesocial")
      | .ok false => .ok .null
      | .ok true =>
        match res.data.getItem "MediaResponse" with
        | .error _ => .error (.nameError "telesocial")
        | .ok mr =>
          match mr.getItem "downloadUrl" with
          | .error _ => .error (.nameError "telesocial")
          | .ok u => .ok u
  match urlRes with
  | .error e => (eff, .error e)
  | .ok url =>
    if truthy url then
      match env.fetchUrl url with
      | .urlErr _ => (eff ++ [.rawUrl url], .ok none)
      | .got bytes => (eff ++ [.rawUrl url], .ok (some (file_path, bytes)))
    else (eff, .ok none)

end SimpleClient

/-- The names bound at the top level of telesocial.py after the module body
runs: the imports (telesocial.py:11-23), `__all__`, and the module's own
classes and functions.  (Under the Python 2 fallback branch the same names
are bound.) -/
def moduleGlobals : List String :=
  ["json", "urlencode", "urlopen", "Request", "URLError", "namedtuple",
   "__all__", "Response", "TelesocialError", "TelesocialNetworkError",
   "TelesocialServiceError", "deep_find", "RequestWithMethod", "SimpleClient",
   "encode_multipart_formdata", "RichClientItem", "NetworkId", "Conference",
   "Media", "RichClient"]

/-- A `Conference` rich-client item (telesocial.py:812-822, 1016-1027): the
stored `_id` and the `SimpleClient` reference `_c`. -/
structure ConferenceItem where
  itemId : String
  itemClient : SimpleClient

/-- The names a reference inside the body of `Conference.move` can resolve
to: the method's own bindings (`self`, `to_id`, `network_id` — Python class
bodies are not enclosing scopes for methods) followed by the module-level
names.  `to_conference` is not among them, and it is not a Python builtin
either, so evaluating it raises NameError. -/
def conferenceMoveScope : List String :=
  ["self", "to_id", "network_id"] ++ moduleGlobals

/-- Conference.move (telesocial.py:1072-1086).  The body is
`return self._c.conference_move(self._id, to_conference, network_id)`:
every argument expression is evaluated before `conference_move` can run, and
resolving the unbound name `to_conference` raises NameError, so no request
is built and `conference_move` is never entered. -/
def Conference.move (env : Env) (self : ConferenceItem)
    (to_id network_id : String) : List Effect × Except PyExc Response :=
  if h : "to_conference" ∈ conferenceMoveScope then
    absurd h (by decide)
  else
    ([], .error (.nameError "to_conference"))

/-- Composition `res.data[wrapper][field]`, used to state what a normalized
response carries at a field. -/
def fieldOf (data : JVal) (wrapper field : String) : Except PyExc JVal :=
  data.getItem wrapper >>= fun w => w.getItem field

/-- The shape the spec's list-or-scalar-or-absent rule prescribes for a
normalized field (stated from the spec's words, for comparison with what the
code computes): absent becomes the empty list, a list stays itself, any
other value becomes a one-element list. -/
def specListShape : Option JVal → JVal
  | none => .arr []
  | some (.arr items) => .arr items
  | some v => .arr [v]

theorem lookupJ_pyUpdateJ_self (d : List (String × JVal)) (k : String) (v : JVal) :
    lookupJ (pyUpdateJ d k v) k = some v := by
  induction d with
  | nil => simp [pyUpdateJ, lookupJ]
  | cons p rest ih =>
    obtain ⟨k1, w⟩ := p
    by_cases h : k1 = k <;> simp [pyUpdateJ, lookupJ, h, ih]

theorem lookupJ_pyUpdateJ_ne (d : List (String × JVal)) (k k2 : String) (v : JVal)
    (h : k2 ≠ k) : lookupJ (pyUpdateJ d k v) k2 = lookupJ d k2 := by
  induction d with
  | nil => simp [pyUpdateJ, lookupJ, Ne.symm h]
  | cons p rest ih =>
    obtain ⟨k1, w⟩ := p
    by_cases h2 : k1 = k
    · subst h2
      simp [pyUpdateJ, lookupJ, ih, Ne.symm h]
    · simp [pyUpdateJ, lookupJ, h2, ih]

theorem pyUpdateJ_self (d : List (String × JVal)) (k : String) (v : JVal)
    (h : lookupJ d k = some v) : pyUpdateJ d k v = d := by
  induction d with
  | nil => simp [lookupJ] at h
  | cons p rest ih =>
    obtain ⟨k1, w⟩ := p
    by_cases h2 : k1 = k
    · subst h2
      simp [lookupJ] at h
      simp [pyUpdateJ, h]
    · simp [lookupJ, h2] at h
      simp [pyUpdateJ, h2, ih h]

theorem pyUpdateP_absent (ps : PDict) (key v : String) (h : pyInP key ps = false) :
    pyUpdateP ps key v = ps ++ [(key, v)] := by
  induction ps with
  | nil => simp [pyUpdateP]
  | cons p rest ih =>
    obtain ⟨k1, w⟩ := p
    simp [pyInP] at h
    simp [pyUpdateP, h.1, ih h.2]

/-- First-match lookup in a parameter dict. -/
def lookupP : PDict → String → Option String
  | [], _ => none
  | (k, v) :: rest, key => if k = key then some v else lookupP rest key

theorem lookupP_append_self (ps : PDict) (key v : String) (h : pyInP key ps = false) :
    lookupP (ps ++ [(key, v)]) key = some v := by
  induction ps with
  | nil => simp [lookupP]
  | cons p rest ih =>
    obtain ⟨k1, w⟩ := p
    simp [pyInP] at h
    simp [lookupP, h.1, ih h.2]

theorem not_mem_of_pyInP_false (ps : PDict) (key v : String) (h : pyInP key ps = false) :
    (key, v) ∉ ps := by
  induction ps with
  | nil => simp
  | cons p rest ih =>
    obtain ⟨k1, w⟩ := p
    simp [pyInP] at h
    simp [ih h.2, Prod.ext_iff]
    intro hk _
    exact h.1 hk.symm

theorem specListShape_isArr (o : Option JVal) : ∃ items, specListShape o = .arr items := by
  match o with
  | none => exact ⟨[], rfl⟩
  | some (.arr items) => exact ⟨items, rfl⟩
  | some (.s str) => exact ⟨[.s str], rfl⟩
  | some (.n int) => exact ⟨[.n int], rfl⟩
  | some (.b bool) => exact ⟨[.b bool], rfl⟩
  | some .null => exact ⟨[.null], rfl⟩
  | some (.obj fields) => exact ⟨[.obj fields], rfl⟩

theorem normalizeField_eq (d wd : List (String × JVal)) (wrapper field : String)
    (hw : lookupJ d wrapper = some (.obj wd)) :
    normalizeField (.obj d) wrapper field =
      .ok (.obj (pyUpdateJ d wrapper
        (.obj (pyUpdateJ wd field (specListShape (lookupJ wd field)))))) := by
  match hf : lookupJ wd field with
  | none =>
    simp [normalizeField, JVal.getItem, hw, pyIn, hf, Bind.bind, Except.bind,
      setField2, JVal.setItem, specListShape]
  | some v =>
    match v, hf with
    | .arr items, hf =>
      simp [normalizeField, JVal.getItem, hw, pyIn, hf, Bind.bind, Except.bind,
        Pure.pure, Except.pure, JVal.isArr, specListShape,
        pyUpdateJ_self wd field (.arr items) hf, pyUpdateJ_self d wrapper (.obj wd) hw]
    | .s str, hf =>
      simp [normalizeField, JVal.getItem, hw, pyIn, hf, Bind.bind, Except.bind,
        setField2, JVal.setItem, JVal.isArr, specListShape]
    | .n int, hf =>
      simp [normalizeField, JVal.getItem, hw, pyIn, hf, Bind.bind, Except.bind,
        setField2, JVal.setItem, JVal.isArr, specListShape]
    | .b bool, hf =>
      simp [normalizeField, JVal.getItem, hw, pyIn, hf, Bind.bind, Except.bind,
        setField2, JVal.setItem, JVal.isArr, specListShape]
    | .null, hf =>
      simp [normalizeField, JVal.getItem, hw, pyIn, hf, Bind.bind, Except.bind,
        setField2, JVal.setItem, JVal.isArr, specListShape]
    | .obj fields, hf =>
      simp [normalizeField, JVal.getItem, hw, pyIn, hf, Bind.bind, Except.bind,
        setField2, JVal.setItem, JVal.isArr, specListShape]

theorem raiseService_msg (res : Response) (m : JVal)
    (h : deep_find res.data "message" = .ok m) :
    raiseService res = .error (.svcErr (TelesocialServiceError (.n res.code) m)) := by
  simp [raiseService, h]

theorem raiseService_isError (res : Response) : ∃ e, raiseService res = .error e := by
  match h : deep_find res.data "message" with
  | .ok m => exact ⟨.svcErr (TelesocialServiceError (.n res.code) m), by simp [raiseService, h]⟩
  | .error e => exact ⟨e, by simp [raiseService, h]⟩

theorem deepFindList_noKey_fuel :
    ∀ (n : Nat) (d : List (String × JVal)) (key : String), sizeOf d ≤ n →
      hasKeyDeepList d key = false →
      deepFindList d key = .ok [] ∨ ∃ e, deepFindList d key = .error e := by
  intro n
  induction n with
  | zero =>
    intro d key hs _
    exfalso
    cases d <;> simp at hs
  | succ n ih =>
    intro d key hs hk
    match d with
    | [] => exact Or.inl rfl
    | (k1, v) :: rest =>
      have hs2 : 1 + (1 + sizeOf k1 + sizeOf v) + sizeOf rest ≤ n + 1 := by
        simpa using hs
      have hsrest : sizeOf rest ≤ n := by omega
      cases v with
      | obj fields =>
        simp [hasKeyDeepList] at hk
        have hko : (lookupJ fields key).isSome = false ∧ hasKeyDeepList fields key = false := by
          simpa [hasKeyDeep] using hk.1
        have h0 : lookupJ fields key = none := by
          cases hl : lookupJ fields key <;> simp_all
        have hsf : sizeOf fields ≤ n := by
          have hv : sizeOf (JVal.obj fields) = 1 + sizeOf fields := by simp
          omega
        have hdf : ∃ e, deep_find (.obj fields) key = .error e := by
          rcases ih fields key hsf hko.2 with h1 | ⟨e, h1⟩
          · exact ⟨.indexError, by rw [deep_find, h0, h1]⟩
          · exact ⟨e, by rw [deep_find, h0, h1]⟩
        obtain ⟨e, he⟩ := hdf
        exact Or.inr ⟨e, by simp [deepFindList, he]⟩
      | s str =>
        simp [hasKeyDeepList] at hk
        simpa [deepFindList] using ih rest key hsrest hk
      | n int =>
        simp [hasKeyDeepList] at hk
        simpa [deepFindList] using ih rest key hsrest hk
      | b bool =>
        simp [hasKeyDeepList] at hk
        simpa [deepFindList] using ih rest key hsrest hk
      | null =>
        simp [hasKeyDeepList] at hk
        simpa [deepFindList] using ih rest key hsrest hk
      | arr items =>
        simp [hasKeyDeepList] at hk
        simpa [deepFindList] using ih rest key hsrest hk

theorem deep_find_noKey (v : JVal) (key : String) (h : hasKeyDeep v key = false) :
    ∃ e, deep_find v key = .error e := by
  cases v with
  | obj d =>
    have hk : (lookupJ d key).isSome = false ∧ hasKeyDeepList d key = false := by
      simpa [hasKeyDeep] using h
    have h0 : lookupJ d key = none := by
      cases hl : lookupJ d key <;> simp_all
    rcases deepFindList_noKey_fuel (sizeOf d) d key le_rfl hk.2 with h1 | ⟨e, h1⟩
    · exact ⟨.indexError, by rw [deep_find, h0, h1]⟩
    · exact ⟨e, by rw [deep_find, h0, h1]⟩
  | s str => exact ⟨.typeError, rfl⟩
  | n int => exact ⟨.typeError, rfl⟩
  | b bool => exact ⟨.typeError, rfl⟩
  | null => exact ⟨.typeError, rfl⟩
  | arr items => exact ⟨.typeError, rfl⟩

theorem do_reply (env : Env) (c : SimpleClient) (endpoint : String)
    (params : Option PDict) (method : String) (code : Nat) (raw : String)
    (hf : env.fetch (SimpleClient.buildRequest c endpoint params method) = .reply code raw) :
    SimpleClient._do env c endpoint params method =
      ([.rest (SimpleClient.buildRequest c endpoint params method)],
       .ok { code := code, data := (env.jsonLoads raw).getD (.obj []) }) := by
  simp [SimpleClient._do, SimpleClient._do_raw, hf, Except.map]

/-- Whether an exception is a `TelesocialServiceError`. -/
def PyExc.isServiceError : PyExc → Bool
  | .svcErr _ => true
  | _ => false

/-- A concrete client, `SimpleClient('app-key-1')` with the default host and
scheme. -/
def client0 : SimpleClient := SimpleClient.init "app-key-1" "sb.telesocial.com" true

/-- A transport stub whose every response is status 200 with raw body
`bad`, which no JSON parse accepts. -/
def envC4 : Env :=
  { fetch := fun _ => .reply 200 "bad"
    fetchUrl := fun _ => .urlErr "unused"
    jsonLoads := fun _ => none }

/-- A transport stub whose every response is status 200 with raw body
`2.4.1`. -/
def envC5 : Env :=
  { fetch := fun _ => .reply 200 "2.4.1"
    fetchUrl := fun _ => .urlErr "unused"
    jsonLoads := fun _ => none }

/-- A transport stub answering status 404 with a body carrying a nested
`message`. -/
def envC9 : Env :=
  { fetch := fun _ => .reply 404 "E"
    fetchUrl := fun _ => .urlErr "unused"
    jsonLoads := fun _ => some (.obj [("SomeResponse", .obj [("message", .s "no such media")])]) }

/-- C3, counterexample.  The claim says deep_find returns the associated
value for every nested dictionary in which the key occurs, falsy values
included; but on `{'a': {'message': 0}}` the key occurs (at depth 2) and
`deep_find` raises IndexError: the recursive result `0` fails the
`if a or a == '':` filter, leaving `r` empty at `r[0]`. -/
theorem c3_counterexample :
    deep_find (.obj [("a", .obj [("message", JVal.n 0)])]) "message" = .error .indexError
    ∧ hasKeyDeep (.obj [("a", .obj [("message", JVal.n 0)])]) "message" = true :=
  ⟨rfl, rfl⟩

/-- C3, amended.  `deep_find` returns the associated value whenever the key
is present at the TOP level of the dictionary (falsy values included, so
both spec examples hold: the nested `'oops'` and the top-level `''`), and it
raises when the key occurs nowhere it searches; but a falsy non-`''` value
found below the top level is dropped by the `if a or a == '':` filter, so
occurrence of the key does not in general guarantee success (see the
counterexample). -/
theorem c3_deep_find_amended :
    (∀ (d : List (String × JVal)) (key : String) (v : JVal),
      lookupJ d key = some v → deep_find (.obj d) key = .ok v)
    ∧ deep_find (.obj [("a", .obj [("b", .obj [("message", .s "oops")])])]) "message" =
        .ok (.s "oops")
    ∧ deep_find (.obj [("message", .s "")]) "message" = .ok (.s "")
    ∧ (∀ (v : JVal) (key : String), hasKeyDeep v key = false →
        ∃ e, deep_find v key = .error e) := by
  refine ⟨?_, rfl, rfl, deep_find_noKey⟩
  intro d key v h
  rw [deep_find, h]

/-- C3, witness: the amended theorem applied at a top-level falsy value and
at a dictionary without the key. -/
theorem c3_witness :
    deep_find (.obj [("message", JVal.n 0)]) "message" = .ok (.n 0)
    ∧ (deep_find (.obj [("x", JVal.n 1)]) "message").isOk = false := by
  constructor
  · exact c3_deep_find_amended.1 [("message", JVal.n 0)] "message" (JVal.n 0) rfl
  · obtain ⟨e, he⟩ := c3_deep_find_amended.2.2.2 (.obj [("x", JVal.n 1)]) "message" rfl
    rw [he]
    rfl

/-- C4, counterexample.  The claim says a service error constructed without
an explicit code carries code 500; but the error `version()` raises for an
unparsable body is `TelesocialServiceError(None, 'Invalid version response:
...')`, and because `TelesocialServiceError.__init__` always forwards its
`code` argument (defaulting to `None`) into the kwargs, `kwargs.pop('code',
500)` finds the key and the object carries `None`, not 500. -/
theorem c4_counterexample :
    (SimpleClient.version envC4 client0).2 =
      .error (.svcErr { original := .null, code := .null,
                        message := .s "Invalid version response: bad" })
    ∧ ({ original := .null, code := .null,
         message := .s "Invalid version response: bad" } : ErrObj).code ≠ .n 500 :=
  ⟨rfl, fun h => JVal.noConfusion h⟩

/-- C4, amended.  The 500 / `Unknown error` defaults of
`TelesocialError.__init__` apply only when the `code`/`message` kwargs are
absent: a bare `TelesocialError` and every `TelesocialNetworkError` carry
them; but `TelesocialServiceError` always passes both keywords (with `None`
standing in for an omitted argument), so a service error built without an
explicit code or message carries `None` in those fields — in particular the
unparsable-version error carries code `None` and an explicit message. -/
theorem c4_error_defaults_amended :
    tsErrorInit [] = { original := .null, code := .n 500, message := .s "Unknown error" }
    ∧ (∀ o : JVal, TelesocialNetworkError o =
        { original := o, code := .n 500, message := .s "Unknown error" })
    ∧ (∀ cd m : JVal, TelesocialServiceError cd m =
        { original := .null, code := cd, message := m })
    ∧ (∀ (env : Env) (c : SimpleClient) (raw : String),
        env.fetch (SimpleClient.buildRequest c "version" none "get") = .reply 200 raw →
        mapIntList (pySplit '.' raw) = none →
        (SimpleClient.version env c).2 =
          .error (.svcErr { original := .null, code := .null,
                            message := .s ("Invalid version response: " ++ raw) })) := by
  refine ⟨rfl, fun o => rfl, fun cd m => rfl, ?_⟩
  intro env c raw hf hp
  simp [SimpleClient.version, SimpleClient._do_raw, hf, Except.bind, hp,
    TelesocialServiceError, tsErrorInit, lookupJ]

/-- C4, witness: the amended theorem's version clause applied to the `bad`
stub. -/
theorem c4_witness :
    (SimpleClient.version envC4 client0).2 =
      .error (.svcErr { original := .null, code := .null,
                        message := .s "Invalid version response: bad" }) :=
  c4_error_defaults_amended.2.2.2 envC4 client0 "bad" rfl rfl

/-- C5: against a stub returning raw body `2.4.1` (any status code —
`version` never inspects it), `version()` returns the integer components
`(2, 4, 1)`; against raw body `bad`, it raises a `TelesocialServiceError`
(constructed inside the parse `try`, hence not a network error). -/
theorem c5_version_parsing (env : Env) (c : SimpleClient) (code : Nat) :
    (env.fetch (SimpleClient.buildRequest c "version" none "get") = .reply code "2.4.1" →
      SimpleClient.version env c =
        ([.rest (SimpleClient.buildRequest c "version" none "get")], .ok [2, 4, 1]))
    ∧ (env.fetch (SimpleClient.buildRequest c "version" none "get") = .reply code "bad" →
      (SimpleClient.version env c).2 =
        .error (.svcErr (TelesocialServiceError .null
          (.s "Invalid version response: bad")))) := by
  constructor
  · intro hf
    simp [SimpleClient.version, SimpleClient._do_raw, hf, Except.bind]
    rfl
  · intro hf
    simp [SimpleClient.version, SimpleClient._do_raw, hf, Except.bind]
    rfl

/-- C5, witness: the theorem applied to the `2.4.1` stub and to the `bad`
stub. -/
theorem c5_witness :
    SimpleClient.version envC5 client0 =
      ([.rest (SimpleClient.buildRequest client0 "version" none "get")], .ok [2, 4, 1])
    ∧ (SimpleClient.version envC4 client0).2 =
      .error (.svcErr (TelesocialServiceError .null (.s "Invalid version response: bad"))) :=
  ⟨(c5_version_parsing envC5 client0 200).1 rfl, (c5_version_parsing envC4 client0 200).2 rfl⟩

/-- C9: the claim says `download_file` never raises; but its handler is
written `except telesocial.TelesocialError`, and the name `telesocial` is
unbound inside the module, so when the media-status lookup raises a
`TelesocialError` — here a `TelesocialServiceError(404, 'no such media')`,
exactly the kind the handler was meant to swallow — evaluating the handler
raises NameError, which propagates to the caller. -/
theorem c9_download_raises :
    (SimpleClient.download_file envC9 client0 "m1" "clip.mp3").2 =
      .error (.nameError "telesocial")
    ∧ (SimpleClient.media_status envC9 client0 "m1").2 =
      .error (.svcErr (TelesocialServiceError (.n 404) (.s "no such media"))) :=
  ⟨rfl, rfl⟩

/-- C10: for every transport, client and arguments, `Conference.move`
resolves the unbound name `to_conference` before `conference_move` can be
entered, raising NameError and dispatching no request (the effect list is
empty and the result does not depend on the transport). -/
theorem c10_conference_move_name_error (env : Env) (self : ConferenceItem)
    (to_id network_id : String) :
    Conference.move env self to_id network_id =
      ([], .error (.nameError "to_conference")) := by
  rw [Conference.move, dif_neg (by decide)]

/-- A transport stub answering status 400 with a body that has no `message`
key anywhere. -/
def envC2x : Env :=
  { fetch := fun _ => .reply 400 "E"
    fetchUrl := fun _ => .urlErr "unused"
    jsonLoads := fun _ => some (.obj []) }

/-- A transport stub answering status 400 with `message` nested under an
`error` object. -/
def envC2w : Env :=
  { fetch := fun _ => .reply 400 "E"
    fetchUrl := fun _ => .urlErr "unused"
    jsonLoads := fun _ => some (.obj [("error", .obj [("message", .s "bad phone")])]) }

/-- C2, counterexample.  The claim says every out-of-policy status raises a
`TelesocialServiceError`; but the raise site evaluates
`deep_find(res.data, 'message')` first, and on a body with no reachable
`message` key (here the empty dict a 400 with unparsable body yields) that
lookup raises IndexError, which propagates in place of the service error. -/
theorem c2_counterexample :
    (SimpleClient.media_status envC2x client0 "m1").2 = .error .indexError
    ∧ PyExc.isServiceError .indexError = false :=
  ⟨rfl, rfl⟩

/-- C2, amended.  For the endpoint functions with a status-code policy
(shown for `network_id_register` and `media_status`), a transport status
outside the accepted 2xx range raises a `TelesocialServiceError` whose
`code` attribute equals the transport's status — provided `deep_find`
locates a `message` key in the parsed body; when it does not, its own
failure propagates instead of a service error (see the counterexample). -/
theorem c2_service_error_code_amended :
    (∀ (env : Env) (c : SimpleClient) (nid : String) (ph gr : Option String)
        (code : Nat) (raw : String) (m : JVal),
      env.fetch (SimpleClient.buildRequest c "registrant/"
          (some (addIfTruthy (addIfTruthy [("networkid", nid)] "phone" ph)
            "greetingid" gr)) "post") = .reply code raw →
      ¬(200 ≤ code ∧ code < 300) →
      deep_find ((env.jsonLoads raw).getD (.obj [])) "message" = .ok m →
      (SimpleClient.network_id_register env c nid ph gr).2 =
        .error (.svcErr (TelesocialServiceError (.n code) m)))
    ∧ (∀ (env : Env) (c : SimpleClient) (mid : String) (code : Nat) (raw : String) (m : JVal),
      env.fetch (SimpleClient.buildRequest c ("media/status/" ++ mid)
          (some []) "post") = .reply code raw →
      ¬(200 ≤ code ∧ code < 300) →
      deep_find ((env.jsonLoads raw).getD (.obj [])) "message" = .ok m →
      (SimpleClient.media_status env c mid).2 =
        .error (.svcErr (TelesocialServiceError (.n code) m)))
    ∧ (∀ (cd : Nat) (m : JVal), (TelesocialServiceError (.n cd) m).code = .n cd) := by
  refine ⟨?_, ?_, fun cd m => rfl⟩
  · intro env c nid ph gr code raw m hf hc hm
    have hdo := do_reply env c "registrant/"
      (some (addIfTruthy (addIfTruthy [("networkid", nid)] "phone" ph) "greetingid" gr))
      "post" code raw hf
    simp [SimpleClient.network_id_register, SimpleClient.post, hdo, Except.bind, hc,
      raiseService_msg { code := code, data := (env.jsonLoads raw).getD (.obj []) } m hm]
  · intro env c mid code raw m hf hc hm
    have hdo := do_reply env c ("media/status/" ++ mid) (some []) "post" code raw hf
    simp [SimpleClient.media_status, SimpleClient.post, hdo, Except.bind, hc,
      raiseService_msg { code := code, data := (env.jsonLoads raw).getD (.obj []) } m hm]

/-- C2, witness: the amended theorem applied to a 400 stub whose body
carries `message` under `error`. -/
theorem c2_witness :
    (SimpleClient.network_id_register envC2w client0 "alice" none none).2 =
      .error (.svcErr (TelesocialServiceError (.n 400) (.s "bad phone")))
    ∧ (SimpleClient.media_status envC2w client0 "m1").2 =
      .error (.svcErr (TelesocialServiceError (.n 400) (.s "bad phone"))) :=
  ⟨c2_service_error_code_amended.1 envC2w client0 "alice" none none 400 "E" (.s "bad phone")
      rfl (by decide) rfl,
   c2_service_error_code_amended.2.1 envC2w client0 "m1" 400 "E" (.s "bad phone")
      rfl (by decide) rfl⟩

/-- A transport stub answering status 500 with a body that has no `message`
key anywhere. -/
def envC7x : Env :=
  { fetch := fun _ => .reply 500 "E"
    fetchUrl := fun _ => .urlErr "unused"
    jsonLoads := fun _ => some (.obj []) }

/-- A transport stub answering status 401 with a small body. -/
def envC7a : Env :=
  { fetch := fun _ => .reply 401 "E"
    fetchUrl := fun _ => .urlErr "unused"
    jsonLoads := fun _ => some (.obj [("y", .n 1)]) }

/-- A transport stub answering status 500 with `message` nested under
`error`. -/
def envC7b : Env :=
  { fetch := fun _ => .reply 500 "E"
    fetchUrl := fun _ => .urlErr "unused"
    jsonLoads := fun _ => some (.obj [("error", .obj [("message", .s "boom")])]) }

/-- C7, counterexample.  The claim says every status outside {200, 401, 404}
raises a service error; but for a 500 whose body has no reachable `message`
key, the `deep_find` evaluated at the raise site raises IndexError, which
propagates in place of the service error. -/
theorem c7_counterexample :
    (SimpleClient.network_id_status envC7x client0 "alice" false).2 = .error .indexError
    ∧ PyExc.isServiceError .indexError = false :=
  ⟨rfl, rfl⟩

/-- C7, amended.  `network_id_status` returns the server response with its
parsed body structurally unchanged exactly when the status is one of 200,
401, 404 (401 and 404 included as successful determinations); every other
status raises — a `TelesocialServiceError` carrying that status when
`deep_find` locates a `message` in the body, and the `deep_find` failure
itself otherwise. -/
theorem c7_status_allowlist_amended (env : Env) (c : SimpleClient) (nid : String)
    (rel : Bool) (code : Nat) (raw : String)
    (hf : env.fetch (SimpleClient.buildRequest c ("registrant/" ++ nid)
        (some (if rel then pyUpdateP [] "query" "related" else [])) "post") =
      .reply code raw) :
    (code ∈ ([200, 401, 404] : List Nat) →
      SimpleClient.network_id_status env c nid rel =
        ([.rest (SimpleClient.buildRequest c ("registrant/" ++ nid)
            (some (if rel then pyUpdateP [] "query" "related" else [])) "post")],
         .ok { code := code, data := (env.jsonLoads raw).getD (.obj []) }))
    ∧ (code ∉ ([200, 401, 404] : List Nat) →
        (∃ e, (SimpleClient.network_id_status env c nid rel).2 = .error e)
        ∧ (∀ m, deep_find ((env.jsonLoads raw).getD (.obj [])) "message" = .ok m →
            (SimpleClient.network_id_status env c nid rel).2 =
              .error (.svcErr (TelesocialServiceError (.n code) m)))) := by
  have hdo := do_reply env c ("registrant/" ++ nid)
    (some (if rel then pyUpdateP [] "query" "related" else [])) "post" code raw hf
  constructor
  · intro hin
    simp [SimpleClient.network_id_status, SimpleClient.post, hdo, Except.bind, hin]
  · intro hout
    constructor
    · obtain ⟨e, he⟩ := raiseService_isError
        { code := code, data := (env.jsonLoads raw).getD (.obj []) }
      exact ⟨e, by simp [SimpleClient.network_id_status, SimpleClient.post, hdo,
        Except.bind, hout, he]⟩
    · intro m hm
      simp [SimpleClient.network_id_status, SimpleClient.post, hdo, Except.bind, hout,
        raiseService_msg { code := code, data := (env.jsonLoads raw).getD (.obj []) } m hm]

/-- C7, witness: the amended theorem applied to a 401 stub (response
returned unchanged) and to a 500 stub carrying a `message` (service error
with code 500). -/
theorem c7_witness :
    SimpleClient.network_id_status envC7a client0 "alice" false =
      ([.rest { method := "POST", uri := "https://sb.telesocial.com/api/rest/registrant/alice",
                params := [("appkey", "app-key-1")] }],
       .ok { code := 401, data := .obj [("y", .n 1)] })
    ∧ (SimpleClient.network_id_status envC7b client0 "alice" false).2 =
      .error (.svcErr (TelesocialServiceError (.n 500) (.s "boom"))) :=
  ⟨(c7_status_allowlist_amended envC7a client0 "alice" false 401 "E" rfl).1 (by decide),
   ((c7_status_allowlist_amended envC7b client0 "alice" false 500 "E" rfl).2
      (by decide)).2 (.s "boom") rfl⟩

/-- C6: every request `_do_raw` dispatches carries the client's CURRENT
application key under `appkey` unless the caller supplied one: a
caller-supplied `appkey` passes through untouched, an absent one is
appended with the client's key; and after the key is reassigned
(`setAppkey`, the `appkey` property setter), the next request carries the
new key and the old key's pair appears nowhere in its parameters. -/
theorem c6_appkey_injection (env : Env) (c : SimpleClient) (endpoint method : String)
    (ps : PDict) (k1 k2 : String) :
    (pyInP "appkey" ps = true →
      (SimpleClient._do_raw env c endpoint (some ps) method).1 =
        [.rest { method := pyUpper method, uri := c.host ++ "/api/rest/" ++ endpoint,
                 params := ps }])
    ∧ (pyInP "appkey" ps = false →
        (SimpleClient._do_raw env c endpoint (some ps) method).1 =
          [.rest { method := pyUpper method, uri := c.host ++ "/api/rest/" ++ endpoint,
                   params := ps ++ [("appkey", c.appkey)] }]
        ∧ lookupP (ps ++ [("appkey", c.appkey)]) "appkey" = some c.appkey)
    ∧ (pyInP "appkey" ps = false → k1 ≠ k2 →
        (SimpleClient._do_raw env (SimpleClient.setAppkey c k2) endpoint
            (some ps) method).1 =
          [.rest { method := pyUpper method, uri := c.host ++ "/api/rest/" ++ endpoint,
                   params := ps ++ [("appkey", k2)] }]
        ∧ lookupP (ps ++ [("appkey", k2)]) "appkey" = some k2
        ∧ ("appkey", k1) ∉ ps ++ [("appkey", k2)]) := by
  refine ⟨?_, ?_, ?_⟩
  · intro h
    simp [SimpleClient._do_raw, SimpleClient.buildRequest, h]
  · intro h
    refine ⟨?_, lookupP_append_self ps "appkey" c.appkey h⟩
    simp [SimpleClient._do_raw, SimpleClient.buildRequest, h, pyUpdateP_absent ps "appkey" _ h]
  · intro h hne
    refine ⟨?_, lookupP_append_self ps "appkey" k2 h, ?_⟩
    · simp [SimpleClient._do_raw, SimpleClient.buildRequest, SimpleClient.setAppkey, h,
        pyUpdateP_absent ps "appkey" _ h]
    · intro hmem
      rcases List.mem_append.mp hmem with hp | hp
      · exact not_mem_of_pyInP_false ps "appkey" k1 h hp
      · simp [Prod.ext_iff] at hp
        exact hne hp

/-- C6, witness: the theorem applied with a caller-supplied key, with an
absent key, and after reassigning the client's key. -/
theorem c6_witness :
    (SimpleClient._do_raw envC4 client0 "registrant" (some [("appkey", "caller-key")]) "get").1 =
      [.rest { method := "GET", uri := "https://sb.telesocial.com/api/rest/registrant",
               params := [("appkey", "caller-key")] }]
    ∧ (SimpleClient._do_raw envC4 client0 "registrant" (some [("networkid", "alice")]) "get").1 =
      [.rest { method := "GET", uri := "https://sb.telesocial.com/api/rest/registrant",
               params := [("networkid", "alice"), ("appkey", "app-key-1")] }]
    ∧ (SimpleClient._do_raw envC4 (SimpleClient.setAppkey client0 "new-key") "registrant"
          (some [("networkid", "alice")]) "get").1 =
      [.rest { method := "GET", uri := "https://sb.telesocial.com/api/rest/registrant",
               params := [("networkid", "alice"), ("appkey", "new-key")] }]
    ∧ ("appkey", "app-key-1") ∉
        ([("networkid", "alice"), ("appkey", "new-key")] : PDict) := by
  refine ⟨?_, ?_, ?_, ?_⟩
  · exact (c6_appkey_injection envC4 client0 "registrant" "get"
      [("appkey", "caller-key")] "x" "y").1 rfl
  · exact ((c6_appkey_injection envC4 client0 "registrant" "get"
      [("networkid", "alice")] "x" "y").2.1 rfl).1
  · exact ((c6_appkey_injection envC4 client0 "registrant" "get"
      [("networkid", "alice")] "app-key-1" "new-key").2.2 rfl (by decide)).1
  · exact ((c6_appkey_injection envC4 client0 "registrant" "get"
      [("networkid", "alice")] "app-key-1" "new-key").2.2 rfl (by decide)).2.2

/-- C8: when the optional arguments are not supplied (`None`),
`network_id_register` sends only `networkid` (plus the injected `appkey`) —
no `phone`, no `greetingid` — and `conference_create` likewise sends
neither `recordingid` nor `greetingid`: the optional keys are absent from
the outgoing mapping altogether, not sent empty. -/
theorem c8_optional_params_omitted (env : Env) (c : SimpleClient) (nid : String) :
    (SimpleClient.network_id_register env c nid none none).1 =
      [.rest { method := pyUpper "post", uri := c.host ++ "/api/rest/" ++ "registrant/",
               params := [("networkid", nid), ("appkey", c.appkey)] }]
    ∧ (SimpleClient.conference_create env c nid none none).1 =
      [.rest { method := pyUpper "post", uri := c.host ++ "/api/rest/" ++ "conference",
               params := [("networkid", nid), ("appkey", c.appkey)] }]
    ∧ pyInP "phone" [("networkid", nid), ("appkey", c.appkey)] = false
    ∧ pyInP "greetingid" [("networkid", nid), ("appkey", c.appkey)] = false
    ∧ pyInP "recordingid" [("networkid", nid), ("appkey", c.appkey)] = false := by
  refine ⟨rfl, rfl, ?_, ?_, ?_⟩ <;> simp [pyInP]

/-- A transport stub answering 200 with a conference-list body whose
`inactive` field is a scalar. -/
def envC1x : Env :=
  { fetch := fun _ => .reply 200 "B"
    fetchUrl := fun _ => .urlErr "unused"
    jsonLoads := fun _ => some (.obj [("ConferenceListResponse",
      .obj [("active", .arr []), ("inactive", .s "c1")])]) }

/-- A transport stub answering 200 with a network-id-list body whose
`networkids` field is absent. -/
def envC1a : Env :=
  { fetch := fun _ => .reply 200 "B"
    fetchUrl := fun _ => .urlErr "unused"
    jsonLoads := fun _ => some (.obj [("NetworkidListResponse", .obj [])]) }

/-- A transport stub answering 200 with a media-list body whose `uploaded`
field is a scalar and whose `recorded` field is absent. -/
def envC1b : Env :=
  { fetch := fun _ => .reply 200 "B"
    fetchUrl := fun _ => .urlErr "unused"
    jsonLoads := fun _ => some (.obj [("MediaidListResponse", .obj [("uploaded", .s "m1")])]) }

/-- A transport stub answering 200 with a conference-list body whose
`active` field is already a two-element list. -/
def envC1c : Env :=
  { fetch := fun _ => .reply 200 "B"
    fetchUrl := fun _ => .urlErr "unused"
    jsonLoads := fun _ => some (.obj [("ConferenceListResponse",
      .obj [("active", .arr [.s "c1", .s "c2"])])]) }

/-- A transport stub answering 200 with a conference-list body whose
`active` and `inactive` fields are both scalars. -/
def envC1d : Env :=
  { fetch := fun _ => .reply 200 "B"
    fetchUrl := fun _ => .urlErr "unused"
    jsonLoads := fun _ => some (.obj [("ConferenceListResponse",
      .obj [("active", .s "c0"), ("inactive", .s "c9")])]) }

/-- C1, counterexample.  The claim says every declared
list-or-scalar-or-absent field of a 200 list response is normalized to a
list — naming `inactive` among them; but `conference_list` guards the
`inactive` normalization with `if active == False:`, so a call with
`active=True` returns a scalar `inactive` untouched. -/
theorem c1_counterexample :
    SimpleClient.conference_list envC1x client0 true =
      ([.rest { method := "GET", uri := "https://sb.telesocial.com/api/rest/conference",
                params := [("active", "true"), ("appkey", "app-key-1")] }],
       .ok { code := 200, data := .obj [("ConferenceListResponse",
          .obj [("active", .arr []), ("inactive", .s "c1")])] })
    ∧ (JVal.s "c1").isArr = false :=
  ⟨rfl, rfl⟩

/-- C1, amended.  For each list endpoint and a 200 response whose body
carries the endpoint's wrapper object, the declared fields are rewritten in
place to the list-or-scalar-or-absent normal form (absent becomes `[]`, a
scalar becomes a one-element list, a list is unchanged) — `networkids` for
`network_id_list`, `uploaded` and `recorded` for `media_list`, and `active`
always for `conference_list`; but `inactive` is normalized only when
`conference_list` is called with `active=False` (the default) — with
`active=True` it is left as received (see the counterexample).  The final
clause records that the normal form is always a list. -/
theorem c1_list_normalization_amended :
    (∀ (env : Env) (c : SimpleClient) (raw : String) (d wd : List (String × JVal)),
      env.fetch (SimpleClient.buildRequest c "registrant" none "get") = .reply 200 raw →
      env.jsonLoads raw = some (.obj d) →
      lookupJ d "NetworkidListResponse" = some (.obj wd) →
      SimpleClient.network_id_list env c =
        ([.rest (SimpleClient.buildRequest c "registrant" none "get")],
         .ok { code := 200, data := .obj (pyUpdateJ d "NetworkidListResponse"
           (.obj (pyUpdateJ wd "networkids"
             (specListShape (lookupJ wd "networkids"))))) }))
    ∧ (∀ (env : Env) (c : SimpleClient) (raw : String) (d wd : List (String × JVal)),
      env.fetch (SimpleClient.buildRequest c "media" none "get") = .reply 200 raw →
      env.jsonLoads raw = some (.obj d) →
      lookupJ d "MediaidListResponse" = some (.obj wd) →
      SimpleClient.media_list env c =
        ([.rest (SimpleClient.buildRequest c "media" none "get")],
         .ok { code := 200, data := .obj (pyUpdateJ
           (pyUpdateJ d "MediaidListResponse"
             (.obj (pyUpdateJ wd "uploaded" (specListShape (lookupJ wd "uploaded")))))
           "MediaidListResponse"
           (.obj (pyUpdateJ
             (pyUpdateJ wd "uploaded" (specListShape (lookupJ wd "uploaded")))
             "recorded" (specListShape (lookupJ wd "recorded"))))) }))
    ∧ (∀ (env : Env) (c : SimpleClient) (raw : String) (d wd : List (String × JVal)),
      env.fetch (SimpleClient.buildRequest c "conference"
          (some (pyUpdateP [] "active" "true")) "get") = .reply 200 raw →
      env.jsonLoads raw = some (.obj d) →
      lookupJ d "ConferenceListResponse" = some (.obj wd) →
      SimpleClient.conference_list env c true =
        ([.rest (SimpleClient.buildRequest c "conference"
            (some (pyUpdateP [] "active" "true")) "get")],
         .ok { code := 200, data := .obj (pyUpdateJ d "ConferenceListResponse"
           (.obj (pyUpdateJ wd "active" (specListShape (lookupJ wd "active"))))) }))
    ∧ (∀ (env : Env) (c : SimpleClient) (raw : String) (d wd : List (String × JVal)),
      env.fetch (SimpleClient.buildRequest c "conference" (some []) "get") = .reply 200 raw →
      env.jsonLoads raw = some (.obj d) →
      lookupJ d "ConferenceListResponse" = some (.obj wd) →
      SimpleClient.conference_list env c false =
        ([.rest (SimpleClient.buildRequest c "conference" (some []) "get")],
         .ok { code := 200, data := .obj (pyUpdateJ
           (pyUpdateJ d "ConferenceListResponse"
             (.obj (pyUpdateJ wd "active" (specListShape (lookupJ wd "active")))))
           "ConferenceListResponse"
           (.obj (pyUpdateJ
             (pyUpdateJ wd "active" (specListShape (lookupJ wd "active")))
             "inactive" (specListShape (lookupJ wd "inactive"))))) }))
    ∧ (∀ o : Option JVal, ∃ items, specListShape o = .arr items) := by
  refine ⟨?_, ?_, ?_, ?_, specListShape_isArr⟩
  · intro env c raw d wd hf hj hw
    have hdo := do_reply env c "registrant" none "get" 200 raw hf
    have hn := normalizeField_eq d wd "NetworkidListResponse" "networkids" hw
    simp [SimpleClient.network_id_list, SimpleClient.get, hdo, hj, Except.bind, hn,
      Except.map]
  · intro env c raw d wd hf hj hw
    have hdo := do_reply env c "media" none "get" 200 raw hf
    have h1 := normalizeField_eq d wd "MediaidListResponse" "uploaded" hw
    have hw1 := lookupJ_pyUpdateJ_self d "MediaidListResponse"
      (.obj (pyUpdateJ wd "uploaded" (specListShape (lookupJ wd "uploaded"))))
    have h2 := normalizeField_eq
      (pyUpdateJ d "MediaidListResponse"
        (.obj (pyUpdateJ wd "uploaded" (specListShape (lookupJ wd "uploaded")))))
      (pyUpdateJ wd "uploaded" (specListShape (lookupJ wd "uploaded")))
      "MediaidListResponse" "recorded" hw1
    rw [lookupJ_pyUpdateJ_ne wd "uploaded" "recorded" _ (by decide)] at h2
    simp [SimpleClient.media_list, SimpleClient.get, hdo, hj, Bind.bind, Except.bind,
      Pure.pure, Except.pure, h1, h2, Except.map]
  · intro env c raw d wd hf hj hw
    have hdo := do_reply env c "conference" (some (pyUpdateP [] "active" "true"))
      "get" 200 raw hf
    have hn := normalizeField_eq d wd "ConferenceListResponse" "active" hw
    simp [SimpleClient.conference_list, SimpleClient.get, hdo, hj, Bind.bind, Except.bind,
      Pure.pure, Except.pure, hn, Except.map]
  · intro env c raw d wd hf hj hw
    have hdo := do_reply env c "conference" (some []) "get" 200 raw hf
    have h1 := normalizeField_eq d wd "ConferenceListResponse" "active" hw
    have hw1 := lookupJ_pyUpdateJ_self d "ConferenceListResponse"
      (.obj (pyUpdateJ wd "active" (specListShape (lookupJ wd "active"))))
    have h2 := normalizeField_eq
      (pyUpdateJ d "ConferenceListResponse"
        (.obj (pyUpdateJ wd "active" (specListShape (lookupJ wd "active")))))
      (pyUpdateJ wd "active" (specListShape (lookupJ wd "active")))
      "ConferenceListResponse" "inactive" hw1
    rw [lookupJ_pyUpdateJ_ne wd "active" "inactive" _ (by decide)] at h2
    simp [SimpleClient.conference_list, SimpleClient.get, hdo, hj, Bind.bind, Except.bind,
      Pure.pure, Except.pure, h1, h2, Except.map]

/-- C1, witness: the amended theorem applied to an absent `networkids`, a
scalar `uploaded` with absent `recorded`, an already-list `active` under
`active=True`, and scalar `active`/`inactive` under `active=False`. -/
theorem c1_witness :
    SimpleClient.network_id_list envC1a client0 =
      ([.rest { method := "GET", uri := "https://sb.telesocial.com/api/rest/registrant",
                params := [("appkey", "app-key-1")] }],
       .ok { code := 200, data := .obj [("NetworkidListResponse",
          .obj [("networkids", .arr [])])] })
    ∧ SimpleClient.media_list envC1b client0 =
      ([.rest { method := "GET", uri := "https://sb.telesocial.com/api/rest/media",
                params := [("appkey", "app-key-1")] }],
       .ok { code := 200, data := .obj [("MediaidListResponse",
          .obj [("uploaded", .arr [.s "m1"]), ("recorded", .arr [])])] })
    ∧ SimpleClient.conference_list envC1c client0 true =
      ([.rest { method := "GET", uri := "https://sb.telesocial.com/api/rest/conference",
                params := [("active", "true"), ("appkey", "app-key-1")] }],
       .ok { code := 200, data := .obj [("ConferenceListResponse",
          .obj [("active", .arr [.s "c1", .s "c2"])])] })
    ∧ SimpleClient.conference_list envC1d client0 false =
      ([.rest { method := "GET", uri := "https://sb.telesocial.com/api/rest/conference",
                params := [("appkey", "app-key-1")] }],
       .ok { code := 200, data := .obj [("ConferenceListResponse",
          .obj [("active", .arr [.s "c0"]), ("inactive", .arr [.s "c9"])])] }) :=
  ⟨c1_list_normalization_amended.1 envC1a client0 "B" _ _ rfl rfl rfl,
   c1_list_normalization_amended.2.1 envC1b client0 "B" _ _ rfl rfl rfl,
   c1_list_normalization_amended.2.2.1 envC1c client0 "B" _ _ rfl rfl rfl,
   c1_list_normalization_amended.2.2.2.1 envC1d client0 "B" _ _ rfl rfl rfl⟩
